import Mathlib

/-!
Shallow embedding of the neuropredict cross-validation engine
(`neuropredict/base.py`, class `BaseWorkflow`), together with models of the
collaborator interfaces the engine consumes.  Pure logic of the source is
translated into Lean functions; the effects (the persisted result store on
disk, the random shuffle of the sample-id list) are passed around explicitly.
Numeric configuration values that are Python floats are modelled as rationals,
with the non-finite IEEE inputs represented by a dedicated sum type.
-/

namespace Neuropredict

/-- A Python numeric configuration value: either a finite value (modelled as a
rational) or one of the non-finite IEEE values `inf`, `-inf`, `nan`. -/
inductive PyNum where
  | finite (q : ℚ)
  | posInf
  | negInf
  | nan
deriving DecidableEq

/-- Truncation toward zero of a finite value, the behaviour of Python
`int()` on a float. -/
def pyTrunc (q : ℚ) : ℤ :=
  if 0 ≤ q then ⌊q⌋ else ⌈q⌉

/-- Python `int(x)` on a numeric value (`base.py` line 84,
`self.num_rep_cv = int(self.num_rep_cv)`): truncates a finite value toward
zero, while `int(inf)` raises `OverflowError` and `int(nan)` raises
`ValueError`. -/
def pyInt : PyNum → Except String ℤ
  | .finite q => .ok (pyTrunc q)
  | .posInf => .error "OverflowError: cannot convert float infinity to integer"
  | .negInf => .error "OverflowError: cannot convert float infinity to integer"
  | .nan => .error "ValueError: cannot convert float NaN to integer"

/-- Python `str.lower()`, modelled as per-character lowercasing of the
string's characters (the configuration strings involved are ASCII). -/
def pyLower (s : String) : String := ⟨s.data.map Char.toLower⟩

/-- Modelled from the spec: `cfg.workflow_types` (config_neuropredict.py is
not under src/).  The two workflow kinds dispatched on in
`BaseWorkflow.__init__` (base.py lines 73-78) are classification and
regression. -/
def workflow_types : List String := ["classify", "regress"]

/-- Modelled from the spec: `cfg.GRIDSEARCH_LEVELS` (config_neuropredict.py
is not under src/).  The help text in base.py names the allowed grid-search
levels: none, light and exhaustive. -/
def GRIDSEARCH_LEVELS : List String := ["none", "light", "exhaustive"]

/-- Modelled from the spec: `cfg.results_file_name` (config_neuropredict.py
is not under src/), the fixed file name of the persisted result artifact
inside the output directory. -/
def results_file_name : String := "results_neuropredict.pkl"

/-- The configuration accepted by `BaseWorkflow.__init__`.  Sample ids are
modelled as naturals.  Fields that the engine only hands to opaque
collaborator objects (imputation strategy, deconfounder name, scoring,
reduced dim) are folded into the fitted behaviour of the `Collab` structure
below. -/
structure Config where
  pred_model : String
  covariates : Option (List String)
  dim_red_method : String
  train_perc : ℚ
  num_rep_cv : PyNum
  grid_search_level : String
  out_dir : String
  num_procs : ℕ
  checkpointing : Bool
  workflow_type : String
deriving DecidableEq

/-- Workflow-type validation performed in `BaseWorkflow.__init__` (base.py
lines 67-71): the requested type is lowercased and must be one of the
recognized workflow types, otherwise a `ValueError` is raised. -/
def init (cfg : Config) : Except String Config :=
  if pyLower cfg.workflow_type ∉ workflow_types then
    .error "Invalid workflow. Must be one of classify, regress"
  else
    .ok { cfg with workflow_type := pyLower cfg.workflow_type }

/-- Modelled from the spec: `check_num_procs` (neuropredict/utils.py is not
under src/).  Spec section 5: the worker count is clamped to the number of
available processing units, a count exceeding availability is silently
reduced, never an error; an invalid (non-positive) worker count is a
configuration error. -/
def check_num_procs (avail : ℕ) (requested : ℕ) : Except String ℕ :=
  if requested < 1 then .error "Invalid worker count"
  else .ok (min requested avail)

/-- Path of the persisted result artifact,
`pjoin(self.out_dir, cfg.results_file_name)` (base.py line 108). -/
def outPath (out_dir : String) : String := out_dir ++ "/" ++ results_file_name

/-- The attributes `BaseWorkflow._prepare` derives and stores on the workflow
object (base.py lines 84-108). -/
structure Prepared where
  num_rep_cv : ℤ
  train_perc : ℚ
  num_procs : ℕ
  grid_search_level : String
  id_list : List ℕ
  num_samples : ℕ
  train_set_size : ℕ
  out_results_path : String
deriving DecidableEq

/-- The successful outcome of `_prepare`: in particular the train-set size
`max(1, min(num_samples, np.floor(num_samples * train_perc)))`
(base.py lines 105-106). -/
def mkPrepared (reps : ℤ) (nprocs : ℕ) (ids : List ℕ) (tp : ℚ)
    (gs od : String) : Prepared :=
  { num_rep_cv := reps
    train_perc := tp
    num_procs := nprocs
    grid_search_level := gs
    id_list := ids
    num_samples := ids.length
    train_set_size := (max 1 (min (ids.length : ℤ) ⌊(ids.length : ℚ) * tp⌋)).toNat
    out_results_path := outPath od }

/-- `BaseWorkflow._prepare` (base.py lines 81-110).  The `np.isfinite` check
on line 85 runs only after the `int()` conversion on line 84 has already
succeeded, and an integer is always finite, so that check can never fire and
is not modelled as a separate failure; the non-finite inputs fail inside
`int()` itself. -/
def prepare (avail : ℕ) (ids : List ℕ) (cfg : Config) : Except String Prepared :=
  match pyInt cfg.num_rep_cv with
  | .error e => .error e
  | .ok reps =>
    if reps ≤ 1 then .error "More than 1 repetition is necessary!"
    else if cfg.train_perc ≤ 0 ∨ 1 ≤ cfg.train_perc then
      .error "Train perc > 0.0 and < 1.0"
    else
      match check_num_procs avail cfg.num_procs with
      | .error e => .error e
      | .ok nprocs =>
        if pyLower cfg.grid_search_level ∉ GRIDSEARCH_LEVELS then
          .error "Unrecognized level of grid search"
        else
          .ok (mkPrepared reps nprocs ids cfg.train_perc cfg.grid_search_level
                cfg.out_dir)

/-- Constructor-time validation followed by `_prepare`, the validation
sequence a `run()` call passes through before touching any data. -/
def setup (avail : ℕ) (ids : List ℕ) (cfg : Config) : Except String Prepared :=
  match init cfg with
  | .error e => .error e
  | .ok cfg2 => prepare avail ids cfg2

/-- Decidable check that the repetition-count input survives validation:
it must be finite and truncate to an integer strictly greater than one. -/
def validReps : PyNum → Bool
  | .finite q => decide (1 < pyTrunc q)
  | _ => false

/-- Decidable characterization of the configurations accepted by
`init` followed by `_prepare`. -/
def validCfg (cfg : Config) : Bool :=
  decide (pyLower cfg.workflow_type ∈ workflow_types) &&
  validReps cfg.num_rep_cv &&
  decide (0 < cfg.train_perc) && decide (cfg.train_perc < 1) &&
  decide (1 ≤ cfg.num_procs) &&
  decide (pyLower cfg.grid_search_level ∈ GRIDSEARCH_LEVELS)

/-- The holdout split drawn in `_single_run_cv` (base.py lines 180-182):
after the shuffle, the train set is the first `train_set_size` ids and the
test set is the set difference `set(id_list) - set(train_set)`.  The set
difference is modelled on lists by filtering, which has the same elements. -/
def drawSplit (shuffled : List ℕ) (k : ℕ) : List ℕ × List ℕ :=
  let train := shuffled.take k
  (train, shuffled.filter (fun x => decide (x ∉ train)))

/-- The final fitted pipeline returned by the grid search, as observed by
`_get_feature_importance` (base.py lines 274-294): the dim-reduction step
may expose `get_support(indices=True)` (modelled as an optional index list),
and the estimator may expose the importance attribute named by
`cfg.importance_attr` for its type (modelled as an optional value list);
`best_params_` is carried along. -/
structure FittedPipeline where
  support : Option (List ℕ)
  importanceAttr : Option (List ℚ)
  params : List (String × ℚ)
deriving DecidableEq

/-- The numpy idiom `arr = np.full(num, fill); arr[idx] = vals` with the NaN
fill value modelled as `none` and assigned importance values as `some`:
positions listed in `idx` receive the corresponding entry of `vals`, all
other positions keep the absent-importance sentinel. -/
def scatterFill (num : ℕ) (idx : List ℕ) (vals : List ℚ) : List (Option ℚ) :=
  (idx.zip vals).foldl (fun acc p => acc.set p.1 (some p.2))
    (List.replicate num none)

/-- `BaseWorkflow._get_feature_importance` (base.py lines 274-294): returns
the absent marker unless both the dim-reduction step exposes a selected-index
set and the estimator exposes its importance attribute, in which case a
vector of length `num_features` is built with importance values scattered at
the selected indices over the NaN fill. -/
def get_feature_importance (pl : FittedPipeline) (num_features : ℕ) :
    Option (List (Option ℚ)) :=
  match pl.support with
  | none => none
  | some idx =>
    match pl.importanceAttr with
    | none => none
    | some vals => some (scatterFill num_features idx vals)

/-- A per-repetition, per-modality outcome, spec section 3 Result Record.
Modelled from the spec: the concrete record container lives in
neuropredict/results.py which is not under src/. -/
structure ResultRecord where
  rep : ℕ
  modality : String
  predictions : List ℚ
  truth : List ℚ
  best_params : List (String × ℚ)
  feat_importance : Option (List (Option ℚ))
deriving DecidableEq

/-- The opaque, already-validated collaborators the engine consumes (spec
section 1): fitted transforms are modelled as functions whose first
argument(s) are the data they were fit on.  Feature blocks are modelled as
rational lists. -/
structure Collab where
  imputeT : List ℚ → List ℚ → List ℚ → List ℚ
  preprocT : List ℚ → List ℚ → List ℚ
  gatherCovar : Option (List String) → List ℕ → List ℚ
  deconfT : List ℚ → List ℚ → List ℚ → List ℚ → List ℚ
  optimizeF : List ℚ → List ℚ → FittedPipeline
  predictF : FittedPipeline → List ℚ → List ℚ
  summarizeF : List ResultRecord → List (String × ℚ)

/-- The dataset collaborator (spec section 6): sample-id universe, modality
names, per-modality missing-data flag, and (features, targets) for a given
modality and id subset. -/
structure Datasets where
  samplet_ids : List ℕ
  modality_ids : List String
  missingFlag : String → Bool
  subsetData : String → List ℕ → List ℚ × List ℚ

/-- The intermediate feature blocks produced for one modality inside
`_single_run_cv` (base.py lines 184-208). -/
structure ModalityFlow where
  preprocessed_train : List ℚ
  preprocessed_test : List ℚ
  train_covar : List ℚ
  test_covar : List ℚ
  optimizer_train : List ℚ
  optimizer_test : List ℚ
deriving DecidableEq

/-- The per-modality body of `_single_run_cv` (base.py lines 184-198):
impute when the modality is flagged as missing, preprocess (fit on train,
applied to both), then unconditionally gather covariate data for the train
and test ids (`_get_covariate_data`, lines 196 and 215-227) and
unconditionally deconfound (`_deconfound_data`, lines 197-198 and 259-271),
fitting on train features and train covariates and transforming both sides
with their respective covariates. -/
def singleRunModality (c : Collab) (covariates : Option (List String))
    (missing : Bool) (train_set test_set : List ℕ)
    (train_data test_data train_targets : List ℚ) : ModalityFlow :=
  let trI := if missing then c.imputeT train_data train_targets train_data
             else train_data
  let teI := if missing then c.imputeT train_data train_targets test_data
             else test_data
  let trP := c.preprocT trI trI
  let teP := c.preprocT trI teI
  let trC := c.gatherCovar covariates train_set
  let teC := c.gatherCovar covariates test_set
  { preprocessed_train := trP
    preprocessed_test := teP
    train_covar := trC
    test_covar := teC
    optimizer_train := c.deconfT trP trC trP trC
    optimizer_test := c.deconfT trP trC teP teC }

/-- One full repetition of `_single_run_cv` (base.py lines 177-208) given
the shuffled id list: draw the split, then for every modality run the
transform chain, optimize on the train side only, and record predictions,
truth, chosen parameters, and the feature-importance vector computed over
the optimizer-input feature count (`train_data.shape[1]`, line 245). -/
def singleRunRecords (c : Collab) (ds : Datasets)
    (covariates : Option (List String)) (k : ℕ) (shuffled : List ℕ)
    (r : ℕ) : List ResultRecord :=
  let split := drawSplit shuffled k
  ds.modality_ids.map (fun m =>
    let tr := ds.subsetData m split.1
    let te := ds.subsetData m split.2
    let flow := singleRunModality c covariates (ds.missingFlag m)
      split.1 split.2 tr.1 te.1 tr.2
    let pl := c.optimizeF flow.optimizer_train tr.2
    { rep := r
      modality := m
      predictions := c.predictF pl flow.optimizer_test
      truth := te.2
      best_params := pl.params
      feat_importance := get_feature_importance pl flow.optimizer_train.length })

/-- The sequential loop of `_run_cv` (base.py lines 171-174): one
`_single_run_cv` per repetition index, each drawing its own shuffle from the
supplied stream of permutations. -/
def seqRecords (c : Collab) (ds : Datasets)
    (covariates : Option (List String)) (k reps : ℕ)
    (perms : ℕ → List ℕ) : List ResultRecord :=
  (List.range reps).foldr (fun r acc => singleRunRecords c ds covariates k (perms r) r ++ acc) []

/-- `BaseWorkflow._run_cv` (base.py lines 150-174): with more than one
validated worker the parked parallel path raises `NotImplementedError`
before anything else runs; otherwise the repetitions run sequentially. -/
def run_cv (c : Collab) (ds : Datasets) (covariates : Option (List String))
    (k reps nprocs : ℕ) (perms : ℕ → List ℕ) :
    Except String (List ResultRecord) :=
  if 1 < nprocs then
    .error "NotImplementedError: parallel runs not implemented yet!Use num_procs=1 for now"
  else
    .ok (seqRecords c ds covariates k reps perms)

/-- Modelled from the spec: `cfg.results_to_save` (config_neuropredict.py is
not under src/).  Spec section 6: the persisted artifact holds the full
Experiment State, all Result Records plus the configuration needed to
reproduce a summary.  `BaseWorkflow.save` pickles exactly this dictionary of
attributes (base.py line 352). -/
structure SavedAttrs where
  results : List ResultRecord
  train_perc : ℚ
  num_rep_cv : ℤ
  dim_red_method : String
  pred_model : String
deriving DecidableEq

/-- The on-disk result store: a map from paths to the pickled attribute
dictionary.  An absent entry models a missing or empty file; pickling is
modelled as exact (spec section 4.4 demands a bit-exact round trip). -/
def Store : Type := String → Option SavedAttrs

/-- Writing the pickled attribute dictionary at a path
(`pickle.dump` in `BaseWorkflow.save`, base.py lines 354-356). -/
def saveF (path : String) (d : SavedAttrs) (store : Store) : Store :=
  fun p => if p = path then some d else store p

/-- The attribute dictionary the engine persists after a fresh run. -/
def savedOf (cfg : Config) (reps : ℤ) (rs : List ResultRecord) : SavedAttrs :=
  { results := rs
    train_perc := cfg.train_perc
    num_rep_cv := reps
    dim_red_method := cfg.dim_red_method
    pred_model := cfg.pred_model }

/-- The workflow attributes relevant to persistence: the saved attributes
(`cfg.results_to_save`) plus attributes outside that list, which `load`
leaves untouched. -/
structure WState where
  results : List ResultRecord
  train_perc : ℚ
  num_rep_cv : ℤ
  dim_red_method : String
  pred_model : String
  out_dir : String
  checkpointing : Bool
deriving DecidableEq

/-- The dictionary comprehension of `BaseWorkflow.save` (base.py line 352):
`{ var : getattr(self, var, None) for var in cfg.results_to_save }`. -/
def savedAttrsOf (s : WState) : SavedAttrs :=
  { results := s.results
    train_perc := s.train_perc
    num_rep_cv := s.num_rep_cv
    dim_red_method := s.dim_red_method
    pred_model := s.pred_model }

/-- The setattr loop of `BaseWorkflow.load` (base.py lines 381-382):
every attribute in `cfg.results_to_save` is overwritten from the loaded
dictionary, other attributes keep their value. -/
def restoreAttrs (s : WState) (d : SavedAttrs) : WState :=
  { s with
    results := d.results
    train_perc := d.train_perc
    num_rep_cv := d.num_rep_cv
    dim_red_method := d.dim_red_method
    pred_model := d.pred_model }

/-- `BaseWorkflow.save` (base.py lines 349-363): persist the saved-attribute
dictionary of the current state at the given path. -/
def saveState (path : String) (s : WState) (store : Store) : Store :=
  saveF path (savedAttrsOf s) store

/-- `BaseWorkflow.load` (base.py lines 366-386): unpickle the dictionary at
the path, wrapping a read failure as an `IOError` with the path, then set
every saved attribute on the workflow object. -/
def loadState (path : String) (store : Store) (s : WState) :
    Except String WState :=
  match store path with
  | none => .error ("Error load the results from path: " ++ path)
  | some d => .ok (restoreAttrs s d)

/-- The observable outcome of one `run()` call: the accumulated records, the
summary, how many repetitions were actually computed (splits drawn), and the
result store after the call. -/
structure EngineOutcome where
  results : List ResultRecord
  summary : List (String × ℚ)
  computedReps : ℕ
  store : Store

/-- `BaseWorkflow.run` (base.py lines 131-147): validate via `_prepare`;
if a non-empty persisted artifact exists at the output path, load it and
skip computation, otherwise run `_run_cv` and save; finally summarize
(the summary is a pure function of the recorded results, spec section 4.4;
`summarize` itself is an abstract method implemented outside src/). -/
def runEngine (avail : ℕ) (c : Collab) (ds : Datasets) (cfg : Config)
    (perms : ℕ → List ℕ) (store : Store) : Except String EngineOutcome :=
  match setup avail ds.samplet_ids cfg with
  | .error e => .error e
  | .ok p =>
    match store p.out_results_path with
    | some d =>
      .ok { results := d.results
            summary := c.summarizeF d.results
            computedReps := 0
            store := store }
    | none =>
      match run_cv c ds cfg.covariates p.train_set_size p.num_rep_cv.toNat
          p.num_procs perms with
      | .error e => .error e
      | .ok rs =>
        .ok { results := rs
              summary := c.summarizeF rs
              computedReps := p.num_rep_cv.toNat
              store := saveF p.out_results_path (savedOf cfg p.num_rep_cv rs) store }

/-- Whether an exceptional computation succeeded. -/
def exceptOk {α : Type} : Except String α → Bool
  | .ok _ => true
  | .error _ => false

/-- The records a fresh sequential run computes: one `_single_run_cv` per
repetition, with the validated repetition count and train-set size. -/
def freshRecords (avail : ℕ) (c : Collab) (ds : Datasets) (cfg : Config)
    (q : ℚ) (perms : ℕ → List ℕ) : List ResultRecord :=
  seqRecords c ds cfg.covariates
    (mkPrepared (pyTrunc q) (min cfg.num_procs avail) ds.samplet_ids
      cfg.train_perc cfg.grid_search_level cfg.out_dir).train_set_size
    (pyTrunc q).toNat perms

/-- A concrete collaborator bundle used to instantiate the engine on small
inputs: identity transforms, a fixed fitted pipeline, a length-counting
summary. -/
def cW : Collab :=
  { imputeT := fun _ _ d => d
    preprocT := fun _ d => d
    gatherCovar := fun _ _ => []
    deconfT := fun _ _ d _ => d
    optimizeF := fun _ _ => { support := some [0], importanceAttr := some [1], params := [] }
    predictF := fun _ d => d
    summarizeF := fun rs => [("count", (rs.length : ℚ))] }

/-- A collaborator bundle whose deconfounding transform shifts every feature
by one, used to observe that the deconfounding step runs. -/
def cShift : Collab :=
  { cW with deconfT := fun _ _ d _ => d.map (fun x => x + 1) }

/-- A concrete four-sample, one-modality dataset collaborator. -/
def dsW : Datasets :=
  { samplet_ids := [0, 1, 2, 3]
    modality_ids := ["m1"]
    missingFlag := fun _ => false
    subsetData := fun _ ids => (ids.map (fun i => (i : ℚ)), ids.map (fun i => (i : ℚ))) }

/-- A valid baseline configuration for the concrete instances. -/
def cfgW : Config :=
  { pred_model := "randomforestclassifier"
    covariates := none
    dim_red_method := "variancethreshold"
    train_perc := 1/2
    num_rep_cv := .finite 2
    grid_search_level := "light"
    out_dir := "out"
    num_procs := 1
    checkpointing := false
    workflow_type := "classify" }

/-- The empty result store: no persisted artifact anywhere. -/
def storeEmpty : Store := fun _ => none

/-- A fixed shuffle stream for the concrete instances. -/
def permsW : ℕ → List ℕ := fun _ => [2, 0, 3, 1]

/-- A collaborator bundle whose deconfounding transform prepends a constant
feature, used to observe that the deconfounding step runs even with no
covariates configured. -/
def cDeconf : Collab :=
  { cW with deconfT := fun _ _ d _ => 0 :: d }

/-- The ten-sample universe for the boundary instance. -/
def ids10 : List ℕ := [0, 1, 2, 3, 4, 5, 6, 7, 8, 9]

/-- The four-sample dataset widened to the ten-sample universe. -/
def ds10 : Datasets := { dsW with samplet_ids := ids10 }

/-- The baseline configuration with the boundary train fraction 0.01. -/
def cfg001 : Config := { cfgW with train_perc := 1/100 }

/-- The baseline configuration with exactly one requested repetition. -/
def cfgReps1 : Config := { cfgW with num_rep_cv := .finite 1 }

/-- The baseline configuration with a NaN repetition count. -/
def cfgNan : Config := { cfgW with num_rep_cv := .nan }

/-- The baseline configuration requesting two workers. -/
def cfgPar : Config := { cfgW with num_procs := 2 }

/-- The baseline configuration with the non-integer repetition count 2.9. -/
def cfg29 : Config := { cfgW with num_rep_cv := .finite (29/10) }

/-- The baseline configuration with the non-integer repetition count 1.9. -/
def cfg19 : Config := { cfgW with num_rep_cv := .finite (19/10) }

/-- A fitted pipeline exposing both a selected-index set and an importance
attribute, over four original features. -/
def plW : FittedPipeline :=
  { support := some [0, 2], importanceAttr := some [3, 4], params := [] }

/-- The prepared state of the baseline configuration on the four-sample
universe. -/
def pW : Prepared :=
  mkPrepared (pyTrunc 2) (min cfgW.num_procs 4) [0, 1, 2, 3] cfgW.train_perc
    cfgW.grid_search_level cfgW.out_dir

/-- The prepared state of the boundary configuration on the ten-sample
universe. -/
def p001 : Prepared :=
  mkPrepared (pyTrunc 2) (min cfg001.num_procs 4) ids10 cfg001.train_perc
    cfg001.grid_search_level cfg001.out_dir

theorem validCfg_parts (cfg : Config) (h : validCfg cfg = true) :
    pyLower cfg.workflow_type ∈ workflow_types ∧
    validReps cfg.num_rep_cv = true ∧
    0 < cfg.train_perc ∧ cfg.train_perc < 1 ∧ 1 ≤ cfg.num_procs ∧
    pyLower cfg.grid_search_level ∈ GRIDSEARCH_LEVELS := by
  simp only [validCfg, Bool.and_eq_true, decide_eq_true_eq] at h
  tauto

theorem setup_ok (avail : ℕ) (ids : List ℕ) (cfg : Config) (q : ℚ)
    (hq : cfg.num_rep_cv = PyNum.finite q) (hv : validCfg cfg = true) :
    setup avail ids cfg =
      .ok (mkPrepared (pyTrunc q) (min cfg.num_procs avail) ids
        cfg.train_perc cfg.grid_search_level cfg.out_dir) := by
  obtain ⟨hwf, hr, htp0, htp1, hnp, hgs⟩ := validCfg_parts cfg hv
  rw [hq] at hr
  simp only [validReps, decide_eq_true_eq] at hr
  have h1 : ¬ (pyLower cfg.workflow_type ∉ workflow_types) := not_not_intro hwf
  have h2 : ¬ (pyTrunc q ≤ 1) := by omega
  have h3 : ¬ (cfg.train_perc ≤ 0 ∨ 1 ≤ cfg.train_perc) := by
    push_neg
    exact ⟨htp0, htp1⟩
  have h4 : ¬ (cfg.num_procs < 1) := by omega
  have h5 : ¬ (pyLower cfg.grid_search_level ∉ GRIDSEARCH_LEVELS) :=
    not_not_intro hgs
  simp only [setup, init, prepare, check_num_procs, if_neg h1, hq, pyInt,
    if_neg h2, if_neg h3, if_neg h4, if_neg h5]

theorem prepare_ok_inv (avail : ℕ) (ids : List ℕ) (cfg : Config) (p : Prepared)
    (h : prepare avail ids cfg = .ok p) :
    ∃ q, cfg.num_rep_cv = PyNum.finite q ∧ 1 < pyTrunc q ∧
      0 < cfg.train_perc ∧ cfg.train_perc < 1 ∧ 1 ≤ cfg.num_procs ∧
      pyLower cfg.grid_search_level ∈ GRIDSEARCH_LEVELS ∧
      p = mkPrepared (pyTrunc q) (min cfg.num_procs avail) ids cfg.train_perc
        cfg.grid_search_level cfg.out_dir := by
  unfold prepare at h
  cases hq : cfg.num_rep_cv with
  | posInf => rw [hq] at h; simp [pyInt] at h
  | negInf => rw [hq] at h; simp [pyInt] at h
  | nan => rw [hq] at h; simp [pyInt] at h
  | finite q =>
    rw [hq] at h
    simp only [pyInt] at h
    unfold check_num_procs at h
    split_ifs at h with h1 h2 h3 h4
    refine ⟨q, rfl, by omega, ?_, ?_, by omega, h4, ?_⟩
    · push_neg at h2; exact h2.1
    · push_neg at h2; exact h2.2
    · exact (Except.ok.injEq _ _).mp h.symm

theorem setup_ok_inv (avail : ℕ) (ids : List ℕ) (cfg : Config) (p : Prepared)
    (h : setup avail ids cfg = .ok p) :
    pyLower cfg.workflow_type ∈ workflow_types ∧
    ∃ q, cfg.num_rep_cv = PyNum.finite q ∧ 1 < pyTrunc q ∧
      0 < cfg.train_perc ∧ cfg.train_perc < 1 ∧ 1 ≤ cfg.num_procs ∧
      pyLower cfg.grid_search_level ∈ GRIDSEARCH_LEVELS ∧
      p = mkPrepared (pyTrunc q) (min cfg.num_procs avail) ids cfg.train_perc
        cfg.grid_search_level cfg.out_dir := by
  unfold setup init at h
  split_ifs at h with hwf
  obtain ⟨q, hq, h1, h2, h3, h4, h5, hp⟩ := prepare_ok_inv avail ids _ p h
  exact ⟨hwf, q, hq, h1, h2, h3, h4, h5, hp⟩

theorem runEngine_ok_inv (avail : ℕ) (c : Collab) (ds : Datasets)
    (cfg : Config) (perms : ℕ → List ℕ) (store : Store) (o : EngineOutcome)
    (h : runEngine avail c ds cfg perms store = .ok o) :
    ∃ p, setup avail ds.samplet_ids cfg = .ok p := by
  unfold runEngine at h
  cases hs : setup avail ds.samplet_ids cfg with
  | error e => rw [hs] at h; simp at h
  | ok p => exact ⟨p, rfl⟩

theorem runEngine_fresh (avail : ℕ) (c : Collab) (ds : Datasets) (cfg : Config)
    (perms : ℕ → List ℕ) (store : Store) (q : ℚ)
    (hq : cfg.num_rep_cv = PyNum.finite q) (hv : validCfg cfg = true)
    (hseq : min cfg.num_procs avail ≤ 1)
    (hfresh : store (outPath cfg.out_dir) = none) :
    runEngine avail c ds cfg perms store =
      .ok { results := freshRecords avail c ds cfg q perms
            summary := c.summarizeF (freshRecords avail c ds cfg q perms)
            computedReps := (pyTrunc q).toNat
            store := saveF (outPath cfg.out_dir)
              (savedOf cfg (pyTrunc q) (freshRecords avail c ds cfg q perms))
              store } := by
  have hs := setup_ok avail ds.samplet_ids cfg q hq hv
  have hnp : ¬ (1 < min cfg.num_procs avail) := by omega
  simp only [runEngine, hs, mkPrepared, hfresh, run_cv, if_neg hnp,
    freshRecords]

theorem pyTrunc_one : pyTrunc 1 = 1 := by
  rw [pyTrunc, if_pos] <;> norm_num

theorem pyTrunc_two : pyTrunc 2 = 2 := by
  rw [pyTrunc, if_pos] <;> norm_num

theorem pyTrunc_29 : pyTrunc (29/10) = 2 := by
  rw [pyTrunc, if_pos (by norm_num), Int.floor_eq_iff]
  norm_num

theorem pyTrunc_19 : pyTrunc (19/10) = 1 := by
  rw [pyTrunc, if_pos (by norm_num), Int.floor_eq_iff]
  norm_num

theorem validReps_two : validReps (PyNum.finite 2) = true := by
  simp [validReps, pyTrunc_two]

theorem validCfg_base (tp : ℚ) (x : PyNum) (np : ℕ)
    (h0 : 0 < tp) (h1 : tp < 1) (hx : validReps x = true) (hnp : 1 ≤ np) :
    validCfg { cfgW with train_perc := tp, num_rep_cv := x, num_procs := np } = true := by
  simp only [validCfg, Bool.and_eq_true, decide_eq_true_eq]
  exact ⟨⟨⟨⟨⟨by decide, hx⟩, h0⟩, h1⟩, hnp⟩, by decide⟩

theorem validCfg_cfgW : validCfg cfgW = true :=
  validCfg_base (1/2) (.finite 2) 1 (by norm_num) (by norm_num) validReps_two
    (by decide)

theorem validCfg_cfg001 : validCfg cfg001 = true :=
  validCfg_base (1/100) (.finite 2) 1 (by norm_num) (by norm_num) validReps_two
    (by decide)

theorem validCfg_cfgPar : validCfg cfgPar = true :=
  validCfg_base (1/2) (.finite 2) 2 (by norm_num) (by norm_num) validReps_two
    (by decide)

theorem validCfg_cfg29 : validCfg cfg29 = true :=
  validCfg_base (1/2) (.finite (29/10)) 1 (by norm_num) (by norm_num)
    (by simp [validReps, pyTrunc_29]) (by decide)

/-- C1: within any single repetition of a valid configuration, the train set
(the first `train_set_size` ids of the shuffled universe) and the test set
(the set difference of the universe and the train set) are disjoint and
together cover the full sample universe. -/
theorem single_run_split_partitions_universe (avail : ℕ) (ids : List ℕ)
    (cfg : Config) (p : Prepared) (shuffled : List ℕ)
    (hp : setup avail ids cfg = .ok p) (hperm : shuffled.Perm p.id_list) :
    (drawSplit shuffled p.train_set_size).1.toFinset ∪
        (drawSplit shuffled p.train_set_size).2.toFinset = ids.toFinset ∧
      (drawSplit shuffled p.train_set_size).1.toFinset ∩
        (drawSplit shuffled p.train_set_size).2.toFinset = ∅ := by
  obtain ⟨-, q, hq, -, -, -, -, -, hpe⟩ := setup_ok_inv avail ids cfg p hp
  have hid : p.id_list = ids := by rw [hpe]; rfl
  rw [hid] at hperm
  have hmem : ∀ x : ℕ, x ∈ shuffled ↔ x ∈ ids := fun x => hperm.mem_iff
  constructor
  · ext x
    simp only [Finset.mem_union, List.mem_toFinset, drawSplit, List.mem_filter,
      decide_eq_true_eq]
    constructor
    · rintro (hx | ⟨hx, -⟩)
      · exact (hmem x).1 (List.take_subset _ _ hx)
      · exact (hmem x).1 hx
    · intro hx
      by_cases ht : x ∈ shuffled.take p.train_set_size
      · exact Or.inl ht
      · exact Or.inr ⟨(hmem x).2 hx, ht⟩
  · ext x
    simp only [Finset.mem_inter, List.mem_toFinset, drawSplit, List.mem_filter,
      decide_eq_true_eq, Finset.not_mem_empty, iff_false, not_and]
    exact fun ht _ => not_not_intro ht

/-- Witness for C1 at the four-sample universe with a concrete shuffle. -/
theorem single_run_split_partitions_universe_witness :
    ((drawSplit [2, 0, 3, 1] pW.train_set_size).1.toFinset ∪
        (drawSplit [2, 0, 3, 1] pW.train_set_size).2.toFinset =
          ([0, 1, 2, 3] : List ℕ).toFinset) ∧
      (drawSplit [2, 0, 3, 1] pW.train_set_size).1.toFinset ∩
        (drawSplit [2, 0, 3, 1] pW.train_set_size).2.toFinset = ∅ :=
  single_run_split_partitions_universe 4 [0, 1, 2, 3] cfgW pW [2, 0, 3, 1]
    (setup_ok 4 [0, 1, 2, 3] cfgW 2 rfl validCfg_cfgW) (by decide)

/-- C2: persisting the workflow state and reloading from the same location
yields a state whose saved attributes, all result records included, are
value-equal, field by field, to the persisted ones. -/
theorem save_load_round_trip (path : String) (s tgt : WState) (store : Store) :
    loadState path (saveState path s store) tgt =
        .ok (restoreAttrs tgt (savedAttrsOf s)) ∧
      savedAttrsOf (restoreAttrs tgt (savedAttrsOf s)) = savedAttrsOf s := by
  constructor
  · simp [loadState, saveState, saveF]
  · rfl

/-- C4: for every configuration that passes validation, the derived
train-set size equals clamp(floor(train_fraction × N), 1, N) with N the size
of the sample universe. -/
theorem train_set_size_is_clamped_floor (avail : ℕ) (ids : List ℕ)
    (cfg : Config) (p : Prepared) (h : setup avail ids cfg = .ok p) :
    p.train_set_size =
      max 1 (min ids.length (⌊(ids.length : ℚ) * cfg.train_perc⌋).toNat) := by
  obtain ⟨-, q, hq, -, -, -, -, -, hpe⟩ := setup_ok_inv avail ids cfg p h
  subst hpe
  simp only [mkPrepared]
  generalize ⌊(ids.length : ℚ) * cfg.train_perc⌋ = f
  omega

/-- Witness for C4: train fraction 0.01 on the ten-sample universe clamps
the train-set size up to exactly 1. -/
theorem train_set_size_is_clamped_floor_witness : p001.train_set_size = 1 := by
  have h := train_set_size_is_clamped_floor 4 ids10 cfg001 p001
    (setup_ok 4 ids10 cfg001 2 rfl validCfg_cfg001)
  rw [h]
  rw [show ((ids10.length : ℚ) * cfg001.train_perc) = 1/10 by
    norm_num [ids10, cfg001, cfgW]]
  rw [show ⌊(1/10 : ℚ)⌋ = 0 from by
    rw [Int.floor_eq_zero_iff]
    constructor <;> norm_num]
  decide

/-- C5: whenever the train fraction is outside the open unit interval, the
truncated repetition count is at most one, the grid-search level is not
recognized, or the workflow type is not recognized, the engine raises a
configuration error; the error branch of `runEngine` is taken before any
split is drawn or any data is touched. -/
theorem invalid_config_errors_before_computation (avail : ℕ) (c : Collab)
    (ds : Datasets) (cfg : Config) (perms : ℕ → List ℕ) (store : Store)
    (h : pyLower cfg.workflow_type ∉ workflow_types ∨
      (∃ q, cfg.num_rep_cv = PyNum.finite q ∧ pyTrunc q ≤ 1) ∨
      cfg.train_perc ≤ 0 ∨ 1 ≤ cfg.train_perc ∨
      pyLower cfg.grid_search_level ∉ GRIDSEARCH_LEVELS) :
    exceptOk (runEngine avail c ds cfg perms store) = false := by
  cases hr : runEngine avail c ds cfg perms store with
  | error e => rfl
  | ok o =>
    exfalso
    obtain ⟨p, hp⟩ := runEngine_ok_inv avail c ds cfg perms store o hr
    obtain ⟨hwf, q, hq, h1, h2, h3, -, h5, -⟩ :=
      setup_ok_inv avail ds.samplet_ids cfg p hp
    rcases h with h | ⟨q2, hq2, hle⟩ | h | h | h
    · exact h hwf
    · rw [hq] at hq2
      injection hq2 with hqq
      subst hqq
      omega
    · linarith
    · linarith
    · exact h h5

/-- Witness for C5: a single requested repetition is rejected. -/
theorem invalid_config_errors_before_computation_witness :
    exceptOk (runEngine 4 cW dsW cfgReps1 permsW storeEmpty) = false :=
  invalid_config_errors_before_computation 4 cW dsW cfgReps1 permsW storeEmpty
    (Or.inr (Or.inl ⟨1, rfl, by simp [pyTrunc_one]⟩))

/-- C9: a non-finite repetition count (infinity or NaN) makes the engine
raise before any computation starts: the `int()` conversion inside
validation fails and `runEngine` takes its error branch. -/
theorem nonfinite_reps_error_before_computation (avail : ℕ) (c : Collab)
    (ds : Datasets) (cfg : Config) (perms : ℕ → List ℕ) (store : Store)
    (h : cfg.num_rep_cv = PyNum.posInf ∨ cfg.num_rep_cv = PyNum.negInf ∨
      cfg.num_rep_cv = PyNum.nan) :
    exceptOk (runEngine avail c ds cfg perms store) = false := by
  cases hr : runEngine avail c ds cfg perms store with
  | error e => rfl
  | ok o =>
    exfalso
    obtain ⟨p, hp⟩ := runEngine_ok_inv avail c ds cfg perms store o hr
    obtain ⟨-, q, hq, -⟩ := setup_ok_inv avail ds.samplet_ids cfg p hp
    rcases h with h | h | h <;> rw [h] at hq <;> exact PyNum.noConfusion hq

/-- Witness for C9: a NaN repetition count is rejected. -/
theorem nonfinite_reps_error_before_computation_witness :
    exceptOk (runEngine 4 cW dsW cfgNan permsW storeEmpty) = false :=
  nonfinite_reps_error_before_computation 4 cW dsW cfgNan permsW storeEmpty
    (Or.inr (Or.inr rfl))

theorem runEngine_loaded (avail : ℕ) (c : Collab) (ds : Datasets)
    (cfg : Config) (perms : ℕ → List ℕ) (store : Store) (q : ℚ)
    (d : SavedAttrs) (hq : cfg.num_rep_cv = PyNum.finite q)
    (hv : validCfg cfg = true)
    (hsome : store (outPath cfg.out_dir) = some d) :
    runEngine avail c ds cfg perms store =
      .ok { results := d.results
            summary := c.summarizeF d.results
            computedReps := 0
            store := store } := by
  have hs := setup_ok avail ds.samplet_ids cfg q hq hv
  simp only [runEngine, hs, mkPrepared, hsome]

/-- C3: running the engine against a location without a persisted artifact
computes all repetitions and persists; a second run against the resulting
store reloads, computes no repetition, and produces the identical summary. -/
theorem run_twice_reloads_and_matches_summary (avail : ℕ) (c : Collab)
    (ds : Datasets) (cfg : Config) (perms perms2 : ℕ → List ℕ) (store : Store)
    (q : ℚ) (hq : cfg.num_rep_cv = PyNum.finite q) (hv : validCfg cfg = true)
    (hseq : cfg.num_procs = 1) (hfresh : store (outPath cfg.out_dir) = none) :
    ∃ o1 o2 : EngineOutcome,
      runEngine avail c ds cfg perms store = .ok o1 ∧
      o1.computedReps = (pyTrunc q).toNat ∧ 0 < o1.computedReps ∧
      runEngine avail c ds cfg perms2 o1.store = .ok o2 ∧
      o2.computedReps = 0 ∧ o2.summary = o1.summary := by
  have hseq2 : min cfg.num_procs avail ≤ 1 := by omega
  have h1 := runEngine_fresh avail c ds cfg perms store q hq hv hseq2 hfresh
  have hpos : 0 < (pyTrunc q).toNat := by
    have hr := (validCfg_parts cfg hv).2.1
    rw [hq] at hr
    simp only [validReps, decide_eq_true_eq] at hr
    omega
  have h2 := runEngine_loaded avail c ds cfg perms2
    (saveF (outPath cfg.out_dir)
      (savedOf cfg (pyTrunc q) (freshRecords avail c ds cfg q perms)) store)
    q (savedOf cfg (pyTrunc q) (freshRecords avail c ds cfg q perms)) hq hv
    (by simp [saveF])
  exact ⟨_, _, h1, rfl, hpos, h2, rfl, rfl⟩

/-- Witness for C3 on the four-sample baseline instance. -/
theorem run_twice_reloads_and_matches_summary_witness :
    ∃ o1 o2 : EngineOutcome,
      runEngine 4 cW dsW cfgW permsW storeEmpty = .ok o1 ∧
      o1.computedReps = (pyTrunc 2).toNat ∧ 0 < o1.computedReps ∧
      runEngine 4 cW dsW cfgW permsW o1.store = .ok o2 ∧
      o2.computedReps = 0 ∧ o2.summary = o1.summary :=
  run_twice_reloads_and_matches_summary 4 cW dsW cfgW permsW permsW storeEmpty
    2 rfl validCfg_cfgW rfl rfl

/-- C6 counterexample: with no covariates configured, the features passed on
to pipeline optimization are not the imputed-and-preprocessed features:
base.py lines 195-198 run covariate gathering and deconfounding
unconditionally, so a deconfounding transform that alters its input changes
the features even though no covariates were configured. -/
theorem deconfound_applied_without_covariates_cex :
    (singleRunModality cDeconf none false [0] [1] [5] [6] []).optimizer_train ≠
      (singleRunModality cDeconf none false [0] [1] [5] [6] []).preprocessed_train := by
  decide

/-- C6 amended: within a repetition the covariate-gathering and
deconfounding steps are applied unconditionally, whether or not covariates
are configured; the features handed to pipeline optimization are always the
deconfounding transform of the preprocessed features, fit on the
preprocessed train features and the gathered train covariates. -/
theorem deconfound_applied_unconditionally (c : Collab)
    (covariates : Option (List String)) (missing : Bool)
    (train_set test_set : List ℕ)
    (train_data test_data train_targets : List ℚ) :
    (singleRunModality c covariates missing train_set test_set train_data
        test_data train_targets).train_covar =
        c.gatherCovar covariates train_set ∧
      (singleRunModality c covariates missing train_set test_set train_data
          test_data train_targets).optimizer_train =
        c.deconfT
          (singleRunModality c covariates missing train_set test_set
            train_data test_data train_targets).preprocessed_train
          (c.gatherCovar covariates train_set)
          (singleRunModality c covariates missing train_set test_set
            train_data test_data train_targets).preprocessed_train
          (c.gatherCovar covariates train_set) ∧
      (singleRunModality c covariates missing train_set test_set train_data
          test_data train_targets).optimizer_test =
        c.deconfT
          (singleRunModality c covariates missing train_set test_set
            train_data test_data train_targets).preprocessed_train
          (c.gatherCovar covariates train_set)
          (singleRunModality c covariates missing train_set test_set
            train_data test_data train_targets).preprocessed_test
          (c.gatherCovar covariates test_set) :=
  ⟨rfl, rfl, rfl⟩

theorem foldl_set_length (l : List (ℕ × ℚ)) (acc : List (Option ℚ)) :
    (l.foldl (fun a p => a.set p.1 (some p.2)) acc).length = acc.length := by
  induction l generalizing acc with
  | nil => rfl
  | cons hd tl ih => rw [List.foldl_cons, ih, List.length_set]

theorem foldl_set_getElem_not_mem (l : List (ℕ × ℚ))
    (acc : List (Option ℚ)) (i : ℕ) (hi : ∀ p ∈ l, p.1 ≠ i) :
    (l.foldl (fun a p => a.set p.1 (some p.2)) acc)[i]? = acc[i]? := by
  induction l generalizing acc with
  | nil => rfl
  | cons hd tl ih =>
    rw [List.foldl_cons,
      ih _ (fun p hp => hi p (List.mem_cons_of_mem hd hp)),
      List.getElem?_set_ne (hi hd (List.mem_cons_self hd tl))]

theorem scatterFill_length (num : ℕ) (idx : List ℕ) (vals : List ℚ) :
    (scatterFill num idx vals).length = num := by
  rw [scatterFill, foldl_set_length, List.length_replicate]

theorem scatterFill_not_selected (num : ℕ) (idx : List ℕ) (vals : List ℚ)
    (i : ℕ) (hlt : i < num) (hmem : i ∉ idx) :
    (scatterFill num idx vals)[i]? = some none := by
  rw [scatterFill, foldl_set_getElem_not_mem,
    List.getElem?_replicate_of_lt hlt]
  rintro ⟨a, b⟩ hp hpe
  exact hmem (hpe ▸ (List.of_mem_zip hp).1)

/-- C7: feature importance is returned iff both the dim-reduction stage
exposes a selected-index set and the estimator exposes its importance
attribute; any returned vector has length equal to the original feature
count, with the absent-importance sentinel (not zero) at every non-selected
index. -/
theorem feature_importance_shape_and_sentinel (pl : FittedPipeline) (n : ℕ) :
    ((get_feature_importance pl n).isSome =
        (pl.support.isSome && pl.importanceAttr.isSome)) ∧
      ∀ idx vals, pl.support = some idx → pl.importanceAttr = some vals →
        get_feature_importance pl n = some (scatterFill n idx vals) ∧
        (scatterFill n idx vals).length = n ∧
        ∀ i, i < n → i ∉ idx → (scatterFill n idx vals)[i]? = some none := by
  constructor
  · cases hs : pl.support <;> cases ha : pl.importanceAttr <;>
      simp [get_feature_importance, hs, ha]
  · intro idx vals hs ha
    exact ⟨by simp [get_feature_importance, hs, ha],
      scatterFill_length n idx vals,
      fun i h1 h2 => scatterFill_not_selected n idx vals i h1 h2⟩

/-- Witness for C7 on a pipeline selecting indices 0 and 2 of four original
features: the importance vector is present, has length four, and carries the
sentinel at the non-selected index 1. -/
theorem feature_importance_shape_and_sentinel_witness :
    get_feature_importance plW 4 = some (scatterFill 4 [0, 2] [3, 4]) ∧
      (scatterFill 4 [0, 2] [3, 4]).length = 4 ∧
      (scatterFill 4 [0, 2] [3, 4])[1]? = some none := by
  have h := (feature_importance_shape_and_sentinel plW 4).2 [0, 2] [3, 4]
    rfl rfl
  exact ⟨h.1, h.2.1, h.2.2 1 (by decide) (by decide)⟩

theorem runEngine_parallel_raises (avail : ℕ) (c : Collab) (ds : Datasets)
    (cfg : Config) (perms : ℕ → List ℕ) (store : Store) (q : ℚ)
    (hq : cfg.num_rep_cv = PyNum.finite q) (hv : validCfg cfg = true)
    (hpar : 1 < min cfg.num_procs avail)
    (hfresh : store (outPath cfg.out_dir) = none) :
    runEngine avail c ds cfg perms store =
      .error "NotImplementedError: parallel runs not implemented yet!Use num_procs=1 for now" := by
  have hs := setup_ok avail ds.samplet_ids cfg q hq hv
  simp only [runEngine, hs, mkPrepared, hfresh, run_cv, if_pos hpar]

/-- C8 counterexample: a fresh run of a valid configuration with a validated
worker count of two raises `NotImplementedError` (base.py lines 153-155)
instead of executing the repetitions, refuting the claim that running with
num_procs greater than one never raises. -/
theorem parallel_run_raises_cex :
    runEngine 4 cW dsW cfgPar permsW storeEmpty =
      .error "NotImplementedError: parallel runs not implemented yet!Use num_procs=1 for now" :=
  runEngine_parallel_raises 4 cW dsW cfgPar permsW storeEmpty 2 rfl
    validCfg_cfgPar (by decide) rfl

/-- C8 amended: with a validated worker count greater than one, a fresh run
raises `NotImplementedError` (the parallel path is parked); the repetitions
all execute to completion only in the strictly sequential mode, a validated
worker count of at most one, which is the default. -/
theorem parallel_raises_sequential_completes (avail : ℕ) (c : Collab)
    (ds : Datasets) (cfg : Config) (perms : ℕ → List ℕ) (store : Store)
    (q : ℚ) (hq : cfg.num_rep_cv = PyNum.finite q)
    (hv : validCfg cfg = true)
    (hfresh : store (outPath cfg.out_dir) = none) :
    (1 < min cfg.num_procs avail →
      runEngine avail c ds cfg perms store =
        .error "NotImplementedError: parallel runs not implemented yet!Use num_procs=1 for now") ∧
      (min cfg.num_procs avail ≤ 1 →
        (runEngine avail c ds cfg perms store).map (fun o => o.computedReps) =
          .ok (pyTrunc q).toNat) := by
  constructor
  · intro hpar
    exact runEngine_parallel_raises avail c ds cfg perms store q hq hv hpar
      hfresh
  · intro hseq
    rw [runEngine_fresh avail c ds cfg perms store q hq hv hseq hfresh]
    rfl

/-- Witness for C8: the sequential baseline computes both repetitions while
the two-worker variant raises. -/
theorem parallel_raises_sequential_completes_witness :
    (runEngine 4 cW dsW cfgW permsW storeEmpty).map
        (fun o => o.computedReps) = .ok (pyTrunc 2).toNat ∧
      runEngine 4 cW dsW cfgPar permsW storeEmpty =
        .error "NotImplementedError: parallel runs not implemented yet!Use num_procs=1 for now" :=
  ⟨(parallel_raises_sequential_completes 4 cW dsW cfgW permsW storeEmpty 2
      rfl validCfg_cfgW rfl).2 (by decide),
    (parallel_raises_sequential_completes 4 cW dsW cfgPar permsW storeEmpty 2
      rfl validCfg_cfgPar rfl).1 (by decide)⟩

/-- C10: the repetition count is truncated toward zero by `int()` before
validation: a fresh sequential run with finite repetition input q computes
exactly trunc(q) repetitions when trunc(q) exceeds one, and raises the
more-than-one-repetition configuration error when trunc(q) is at most one. -/
theorem reps_truncated_toward_zero (avail : ℕ) (c : Collab) (ds : Datasets)
    (cfg : Config) (perms : ℕ → List ℕ) (store : Store) (q : ℚ)
    (hq : cfg.num_rep_cv = PyNum.finite q)
    (hwf : pyLower cfg.workflow_type ∈ workflow_types)
    (htp0 : 0 < cfg.train_perc) (htp1 : cfg.train_perc < 1)
    (hnp : cfg.num_procs = 1)
    (hgs : pyLower cfg.grid_search_level ∈ GRIDSEARCH_LEVELS)
    (hfresh : store (outPath cfg.out_dir) = none) :
    (1 < pyTrunc q →
      (runEngine avail c ds cfg perms store).map (fun o => o.computedReps) =
        .ok (pyTrunc q).toNat) ∧
      (pyTrunc q ≤ 1 →
        runEngine avail c ds cfg perms store =
          .error "More than 1 repetition is necessary!") := by
  constructor
  · intro hgt
    have hv : validCfg cfg = true := by
      simp only [validCfg, Bool.and_eq_true, decide_eq_true_eq]
      refine ⟨⟨⟨⟨⟨hwf, ?_⟩, htp0⟩, htp1⟩, by omega⟩, hgs⟩
      rw [hq]
      simp [validReps, hgt]
    rw [runEngine_fresh avail c ds cfg perms store q hq hv (by omega) hfresh]
    rfl
  · intro hle
    have h1 : ¬ (pyLower cfg.workflow_type ∉ workflow_types) :=
      not_not_intro hwf
    have hsetup : setup avail ds.samplet_ids cfg =
        .error "More than 1 repetition is necessary!" := by
      simp only [setup, init, prepare, if_neg h1, hq, pyInt, if_pos hle]
    unfold runEngine
    rw [hsetup]

/-- Witness for C10: repetition input 2.9 runs exactly two repetitions while
1.9 truncates to one and is rejected. -/
theorem reps_truncated_toward_zero_witness :
    (runEngine 4 cW dsW cfg29 permsW storeEmpty).map
        (fun o => o.computedReps) = .ok (pyTrunc (29/10)).toNat ∧
      runEngine 4 cW dsW cfg19 permsW storeEmpty =
        .error "More than 1 repetition is necessary!" :=
  ⟨(reps_truncated_toward_zero 4 cW dsW cfg29 permsW storeEmpty (29/10) rfl
      (by decide) (by norm_num [cfg29, cfgW]) (by norm_num [cfg29, cfgW]) rfl
      (by decide) rfl).1 (by simp [pyTrunc_29]),
    (reps_truncated_toward_zero 4 cW dsW cfg19 permsW storeEmpty (19/10) rfl
      (by decide) (by norm_num [cfg19, cfgW]) (by norm_num [cfg19, cfgW]) rfl
      (by decide) rfl).2 (by simp [pyTrunc_19])⟩

end Neuropredict
